import Mathlib

/-!
Shallow embedding of `src/ruma-events/src/key/verification.rs`: the five
closed enumerations of the `m.key.verification` event family together with
their textual codecs. In the source every codec is produced by derive
attributes on the declarations — `#[serde(rename_all = ...)]` /
`#[serde(rename = ...)]` for the JSON wire form and
`#[strum(serialize_all = ...)]` / `#[strum(serialize = ...)]` for the
Display and FromStr implementations — so the embedding defines the two
case-conversion algorithms those attributes invoke (the serde rename rules,
and the heck conversion used by strum) and applies them to the variant
identifiers exactly as written in the source.
-/

namespace KeyVerification

/-- Serde rename rule `snake_case` applied to the tail of an identifier:
every character is ASCII-lowercased and an underscore is inserted before
every uppercase character (mirrors `RenameRule::SnakeCase`, which inserts
the underscore at every index greater than zero). -/
def serdeSnakeAux : List Char → List Char
  | [] => []
  | c :: cs => (if c.isUpper then ['_', c.toLower] else [c.toLower]) ++ serdeSnakeAux cs

/-- Serde rename rule `snake_case` on a full identifier: the first character
is lowercased without a separator, the rest via `serdeSnakeAux`. -/
def serdeSnakeCase (s : String) : String :=
  match s.toList with
  | [] => ""
  | c :: cs => String.mk (c.toLower :: serdeSnakeAux cs)

/-- Serde rename rule `kebab-case`: the `snake_case` form with every
underscore replaced by a hyphen. -/
def serdeKebabCase (s : String) : String :=
  String.mk ((serdeSnakeCase s).toList.map (fun c => if c = '_' then '-' else c))

/-- Character modes of the heck case converter, which strum uses for
`serialize_all`. -/
inductive WordMode
  | boundary
  | lowercase
  | uppercase
  deriving DecidableEq

/-- Splits one alphanumeric chunk into words at heck boundaries: after a
lowercase-mode character that is followed by an uppercase one, and before
the final uppercase character of an uppercase run that is followed by a
lowercase one. Digits keep the current mode. The accumulator holds the
current word reversed. -/
def heckWords : List Char → WordMode → List Char → List (List Char)
  | [], _, _ => []
  | [c], _, acc => [(c :: acc).reverse]
  | c :: next :: rest, mode, acc =>
    let nextMode := if c.isLower then WordMode.lowercase
      else if c.isUpper then WordMode.uppercase else mode
    if nextMode = WordMode.lowercase ∧ next.isUpper then
      (c :: acc).reverse :: heckWords (next :: rest) WordMode.boundary []
    else if mode = WordMode.uppercase ∧ c.isUpper ∧ next.isLower then
      acc.reverse :: heckWords (next :: rest) WordMode.boundary [c]
    else
      heckWords (next :: rest) nextMode (c :: acc)

/-- Splits a character list into maximal alphanumeric chunks, dropping the
separators, as the heck converter first splits its input on every
non-alphanumeric character. -/
def splitNonAlnum : List Char → List Char → List (List Char)
  | [], acc => [acc.reverse]
  | c :: cs, acc =>
    if c.isAlphanum then splitNonAlnum cs (c :: acc)
    else acc.reverse :: splitNonAlnum cs []

/-- Joins words with a single separator character between them. -/
def joinSep (sep : Char) : List (List Char) → List Char
  | [] => []
  | [w] => w
  | w :: ws => w ++ sep :: joinSep sep ws

/-- Heck lowercase conversion with a separator: split on non-alphanumeric
characters, split each chunk into words, lowercase every word and join the
nonempty words with the separator (the emptiness filter mirrors the
`init != i` guard of the heck transform). -/
def heckLowerSep (sep : Char) (s : String) : String :=
  let chunks := (splitNonAlnum s.toList []).filter (fun w => w ≠ [])
  let words := (chunks.map (fun w => heckWords w WordMode.boundary [])).flatten
  let words := words.filter (fun w => w ≠ [])
  String.mk (joinSep sep (words.map (fun w => w.map Char.toLower)))

/-- Strum `serialize_all = "snake_case"`: heck snake-case conversion. -/
def strumSnakeCase (s : String) : String := heckLowerSep '_' s

/-- Strum `serialize_all = "kebab-case"`: heck kebab-case conversion. -/
def strumKebabCase (s : String) : String := heckLowerSep '-' s

/-- Modelled from the spec: JSON values, the only external surface of the
module (spec §6); numbers are modelled as integers, since the claims only
distinguish strings from non-strings. The serde_json runtime that realises
this surface is not part of the repository sources. -/
inductive Json
  | null
  | bool (b : Bool)
  | num (n : Int)
  | str (s : String)
  | arr (elems : List Json)
  | obj (fields : List (String × Json))

/-- Error of the strum-derived FromStr implementations: the single variant
of `strum::ParseError`. -/
inductive ParseError
  | VariantNotFound
  deriving DecidableEq

/-- Modelled from the spec: failure of the JSON decoder — `unknownVariant`
carries a received string outside the canonical table (spec §7), and
`invalidType` reports a JSON value that is not a string where a variant
string is expected. -/
inductive DeError
  | invalidType
  | unknownVariant (received : String)
  deriving DecidableEq

/-- A hash algorithm: `enum HashAlgorithm`. -/
inductive HashAlgorithm
  | Sha256
  deriving DecidableEq

/-- Identifier of each `HashAlgorithm` variant as written in the source. -/
def HashAlgorithm.name : HashAlgorithm → String
  | .Sha256 => "Sha256"

/-- Canonical wire form, per `#[serde(rename_all = "snake_case")]`. Total:
every variant is renamed, nothing can fail. -/
def HashAlgorithm.encode (v : HashAlgorithm) : String :=
  serdeSnakeCase v.name

/-- Display output, per `#[strum(serialize_all = "snake_case")]`. -/
def HashAlgorithm.display (v : HashAlgorithm) : String :=
  strumSnakeCase v.name

/-- Strum-derived FromStr: exact match of the input against the
strum-serialized name of each variant, in declaration order. -/
def HashAlgorithm.fromStr (s : String) : Except ParseError HashAlgorithm :=
  if s = strumSnakeCase "Sha256" then .ok .Sha256
  else .error .VariantNotFound

/-- Serde-derived variant-identifier matching: exact match of a string
against the serde-renamed name of each variant. -/
def HashAlgorithm.decodeStr (s : String) : Except DeError HashAlgorithm :=
  if s = serdeSnakeCase "Sha256" then .ok .Sha256
  else .error (.unknownVariant s)

/-- Modelled from the spec: a value is encoded as a JSON string whose
contents are exactly the canonical wire form (spec §6). -/
def HashAlgorithm.serialize (v : HashAlgorithm) : Json :=
  .str v.encode

/-- Modelled from the spec: decoding reads a JSON string and matches it
against the canonical table; any non-string JSON value is rejected
(spec §6 and §7). -/
def HashAlgorithm.deserialize : Json → Except DeError HashAlgorithm
  | .str s => HashAlgorithm.decodeStr s
  | _ => .error .invalidType

/-- Canonical wire-string table of `HashAlgorithm` (spec §3). -/
def HashAlgorithm.table : List String := ["sha256"]

/-- A key agreement protocol: `enum KeyAgreementProtocol`. -/
inductive KeyAgreementProtocol
  | Curve25519
  | Curve25519HkdfSha256
  deriving DecidableEq

/-- Identifier of each `KeyAgreementProtocol` variant as written in the
source. -/
def KeyAgreementProtocol.name : KeyAgreementProtocol → String
  | .Curve25519 => "Curve25519"
  | .Curve25519HkdfSha256 => "Curve25519HkdfSha256"

/-- Canonical wire form, per `#[serde(rename_all = "kebab-case")]`. -/
def KeyAgreementProtocol.encode (v : KeyAgreementProtocol) : String :=
  serdeKebabCase v.name

/-- Display output, per `#[strum(serialize_all = "kebab-case")]`. -/
def KeyAgreementProtocol.display (v : KeyAgreementProtocol) : String :=
  strumKebabCase v.name

/-- Strum-derived FromStr for `KeyAgreementProtocol`. -/
def KeyAgreementProtocol.fromStr (s : String) : Except ParseError KeyAgreementProtocol :=
  if s = strumKebabCase "Curve25519" then .ok .Curve25519
  else if s = strumKebabCase "Curve25519HkdfSha256" then .ok .Curve25519HkdfSha256
  else .error .VariantNotFound

/-- Serde-derived variant-identifier matching for `KeyAgreementProtocol`. -/
def KeyAgreementProtocol.decodeStr (s : String) : Except DeError KeyAgreementProtocol :=
  if s = serdeKebabCase "Curve25519" then .ok .Curve25519
  else if s = serdeKebabCase "Curve25519HkdfSha256" then .ok .Curve25519HkdfSha256
  else .error (.unknownVariant s)

/-- Modelled from the spec: JSON encoding of a `KeyAgreementProtocol`
(spec §6). -/
def KeyAgreementProtocol.serialize (v : KeyAgreementProtocol) : Json :=
  .str v.encode

/-- Modelled from the spec: JSON decoding of a `KeyAgreementProtocol`
(spec §6 and §7). -/
def KeyAgreementProtocol.deserialize : Json → Except DeError KeyAgreementProtocol
  | .str s => KeyAgreementProtocol.decodeStr s
  | _ => .error .invalidType

/-- Canonical wire-string table of `KeyAgreementProtocol` (spec §3). -/
def KeyAgreementProtocol.table : List String :=
  ["curve25519", "curve25519-hkdf-sha256"]

/-- A message authentication code algorithm:
`enum MessageAuthenticationCode`. -/
inductive MessageAuthenticationCode
  | HkdfHmacSha256
  | HmacSha256
  deriving DecidableEq

/-- Identifier of each `MessageAuthenticationCode` variant as written in
the source. -/
def MessageAuthenticationCode.name : MessageAuthenticationCode → String
  | .HkdfHmacSha256 => "HkdfHmacSha256"
  | .HmacSha256 => "HmacSha256"

/-- Canonical wire form, per `#[serde(rename_all = "kebab-case")]`. -/
def MessageAuthenticationCode.encode (v : MessageAuthenticationCode) : String :=
  serdeKebabCase v.name

/-- Display output, per `#[strum(serialize_all = "kebab-case")]`. -/
def MessageAuthenticationCode.display (v : MessageAuthenticationCode) : String :=
  strumKebabCase v.name

/-- Strum-derived FromStr for `MessageAuthenticationCode`. -/
def MessageAuthenticationCode.fromStr (s : String) : Except ParseError MessageAuthenticationCode :=
  if s = strumKebabCase "HkdfHmacSha256" then .ok .HkdfHmacSha256
  else if s = strumKebabCase "HmacSha256" then .ok .HmacSha256
  else .error .VariantNotFound

/-- Serde-derived variant-identifier matching for
`MessageAuthenticationCode`. -/
def MessageAuthenticationCode.decodeStr (s : String) : Except DeError MessageAuthenticationCode :=
  if s = serdeKebabCase "HkdfHmacSha256" then .ok .HkdfHmacSha256
  else if s = serdeKebabCase "HmacSha256" then .ok .HmacSha256
  else .error (.unknownVariant s)

/-- Modelled from the spec: JSON encoding of a `MessageAuthenticationCode`
(spec §6). -/
def MessageAuthenticationCode.serialize (v : MessageAuthenticationCode) : Json :=
  .str v.encode

/-- Modelled from the spec: JSON decoding of a `MessageAuthenticationCode`
(spec §6 and §7). -/
def MessageAuthenticationCode.deserialize : Json → Except DeError MessageAuthenticationCode
  | .str s => MessageAuthenticationCode.decodeStr s
  | _ => .error .invalidType

/-- Canonical wire-string table of `MessageAuthenticationCode` (spec §3). -/
def MessageAuthenticationCode.table : List String :=
  ["hkdf-hmac-sha256", "hmac-sha256"]

/-- A Short Authentication String method:
`enum ShortAuthenticationString`. -/
inductive ShortAuthenticationString
  | Decimal
  | Emoji
  deriving DecidableEq

/-- Identifier of each `ShortAuthenticationString` variant as written in
the source. -/
def ShortAuthenticationString.name : ShortAuthenticationString → String
  | .Decimal => "Decimal"
  | .Emoji => "Emoji"

/-- Canonical wire form, per `#[serde(rename_all = "snake_case")]`. -/
def ShortAuthenticationString.encode (v : ShortAuthenticationString) : String :=
  serdeSnakeCase v.name

/-- Display output, per `#[strum(serialize_all = "snake_case")]`. -/
def ShortAuthenticationString.display (v : ShortAuthenticationString) : String :=
  strumSnakeCase v.name

/-- Strum-derived FromStr for `ShortAuthenticationString`. -/
def ShortAuthenticationString.fromStr (s : String) : Except ParseError ShortAuthenticationString :=
  if s = strumSnakeCase "Decimal" then .ok .Decimal
  else if s = strumSnakeCase "Emoji" then .ok .Emoji
  else .error .VariantNotFound

/-- Serde-derived variant-identifier matching for
`ShortAuthenticationString`. -/
def ShortAuthenticationString.decodeStr (s : String) : Except DeError ShortAuthenticationString :=
  if s = serdeSnakeCase "Decimal" then .ok .Decimal
  else if s = serdeSnakeCase "Emoji" then .ok .Emoji
  else .error (.unknownVariant s)

/-- Modelled from the spec: JSON encoding of a `ShortAuthenticationString`
(spec §6). -/
def ShortAuthenticationString.serialize (v : ShortAuthenticationString) : Json :=
  .str v.encode

/-- Modelled from the spec: JSON decoding of a `ShortAuthenticationString`
(spec §6 and §7). -/
def ShortAuthenticationString.deserialize : Json → Except DeError ShortAuthenticationString
  | .str s => ShortAuthenticationString.decodeStr s
  | _ => .error .invalidType

/-- Canonical wire-string table of `ShortAuthenticationString` (spec §3). -/
def ShortAuthenticationString.table : List String := ["decimal", "emoji"]

/-- A Short Authentication String verification method:
`enum VerificationMethod`. Its single variant carries explicit literal
renames — `#[serde(rename = "m.sas.v1")]` and
`#[strum(serialize = "m.sas.v1")]` — so no case conversion applies. -/
inductive VerificationMethod
  | MSasV1
  deriving DecidableEq

/-- Canonical wire form of `VerificationMethod`: the literal string of
`#[serde(rename = "m.sas.v1")]`. -/
def VerificationMethod.encode (v : VerificationMethod) : String :=
  match v with
  | .MSasV1 => "m.sas.v1"

/-- Display output of `VerificationMethod`: the literal string of
`#[strum(serialize = "m.sas.v1")]`. -/
def VerificationMethod.display (v : VerificationMethod) : String :=
  match v with
  | .MSasV1 => "m.sas.v1"

/-- Strum-derived FromStr for `VerificationMethod`: exact match against the
explicit serialize literal. -/
def VerificationMethod.fromStr (s : String) : Except ParseError VerificationMethod :=
  if s = "m.sas.v1" then .ok .MSasV1
  else .error .VariantNotFound

/-- Serde-derived variant-identifier matching for `VerificationMethod`:
exact match against the explicit rename literal. -/
def VerificationMethod.decodeStr (s : String) : Except DeError VerificationMethod :=
  if s = "m.sas.v1" then .ok .MSasV1
  else .error (.unknownVariant s)

/-- Modelled from the spec: JSON encoding of a `VerificationMethod`
(spec §6). -/
def VerificationMethod.serialize (v : VerificationMethod) : Json :=
  .str v.encode

/-- Modelled from the spec: JSON decoding of a `VerificationMethod`
(spec §6 and §7). -/
def VerificationMethod.deserialize : Json → Except DeError VerificationMethod
  | .str s => VerificationMethod.decodeStr s
  | _ => .error .invalidType

/-- Canonical wire-string table of `VerificationMethod` (spec §3). -/
def VerificationMethod.table : List String := ["m.sas.v1"]

/-- Modelled from the spec: an array of values decodes elementwise from a
JSON array of variant strings (spec §6); a non-array is rejected. -/
def deserializeList {α : Type} (de : Json → Except DeError α) :
    Json → Except DeError (List α)
  | .arr elems => elems.mapM de
  | _ => .error .invalidType

/-- Strum snake-case rendering of the identifier `Sha256`. -/
theorem strum_Sha256 : strumSnakeCase "Sha256" = "sha256" := by decide

/-- Strum kebab-case rendering of the identifier `Curve25519`. -/
theorem strum_Curve25519 : strumKebabCase "Curve25519" = "curve25519" := by decide

/-- Strum kebab-case rendering of the identifier `Curve25519HkdfSha256`. -/
theorem strum_Curve25519HkdfSha256 :
    strumKebabCase "Curve25519HkdfSha256" = "curve25519-hkdf-sha256" := by decide

/-- Strum kebab-case rendering of the identifier `HkdfHmacSha256`. -/
theorem strum_HkdfHmacSha256 :
    strumKebabCase "HkdfHmacSha256" = "hkdf-hmac-sha256" := by decide

/-- Strum kebab-case rendering of the identifier `HmacSha256`. -/
theorem strum_HmacSha256 : strumKebabCase "HmacSha256" = "hmac-sha256" := by decide

/-- Strum snake-case rendering of the identifier `Decimal`. -/
theorem strum_Decimal : strumSnakeCase "Decimal" = "decimal" := by decide

/-- Strum snake-case rendering of the identifier `Emoji`. -/
theorem strum_Emoji : strumSnakeCase "Emoji" = "emoji" := by decide

/-- Serde snake-case rendering of the identifier `Sha256`. -/
theorem serde_Sha256 : serdeSnakeCase "Sha256" = "sha256" := by decide

/-- Serde kebab-case rendering of the identifier `Curve25519`. -/
theorem serde_Curve25519 : serdeKebabCase "Curve25519" = "curve25519" := by decide

/-- Serde kebab-case rendering of the identifier `Curve25519HkdfSha256`. -/
theorem serde_Curve25519HkdfSha256 :
    serdeKebabCase "Curve25519HkdfSha256" = "curve25519-hkdf-sha256" := by decide

/-- Serde kebab-case rendering of the identifier `HkdfHmacSha256`. -/
theorem serde_HkdfHmacSha256 :
    serdeKebabCase "HkdfHmacSha256" = "hkdf-hmac-sha256" := by decide

/-- Serde kebab-case rendering of the identifier `HmacSha256`. -/
theorem serde_HmacSha256 : serdeKebabCase "HmacSha256" = "hmac-sha256" := by decide

/-- Serde snake-case rendering of the identifier `Decimal`. -/
theorem serde_Decimal : serdeSnakeCase "Decimal" = "decimal" := by decide

/-- Serde snake-case rendering of the identifier `Emoji`. -/
theorem serde_Emoji : serdeSnakeCase "Emoji" = "emoji" := by decide

/-- C1: for every variant of each of the five enumerations, `encode`
returns exactly the canonical wire string of the data-model table —
`"sha256"`, `"curve25519"`, `"curve25519-hkdf-sha256"`,
`"hkdf-hmac-sha256"`, `"hmac-sha256"`, `"decimal"`, `"emoji"` and
`"m.sas.v1"` with its dots preserved and no case transformation. Each
`encode` is a total Lean function, so it cannot fail. -/
theorem encode_canonical_table :
    HashAlgorithm.encode .Sha256 = "sha256" ∧
    KeyAgreementProtocol.encode .Curve25519 = "curve25519" ∧
    KeyAgreementProtocol.encode .Curve25519HkdfSha256 = "curve25519-hkdf-sha256" ∧
    MessageAuthenticationCode.encode .HkdfHmacSha256 = "hkdf-hmac-sha256" ∧
    MessageAuthenticationCode.encode .HmacSha256 = "hmac-sha256" ∧
    ShortAuthenticationString.encode .Decimal = "decimal" ∧
    ShortAuthenticationString.encode .Emoji = "emoji" ∧
    VerificationMethod.encode .MSasV1 = "m.sas.v1" := by
  refine ⟨?_, ?_, ?_, ?_, ?_, ?_, ?_, ?_⟩ <;> decide

/-- C2: for each of the five enumerations and every variant `v`, decoding
the string produced by encoding `v` yields `v` again. -/
theorem decode_encode_roundtrip :
    (∀ v : HashAlgorithm, HashAlgorithm.fromStr v.encode = .ok v) ∧
    (∀ v : KeyAgreementProtocol, KeyAgreementProtocol.fromStr v.encode = .ok v) ∧
    (∀ v : MessageAuthenticationCode, MessageAuthenticationCode.fromStr v.encode = .ok v) ∧
    (∀ v : ShortAuthenticationString, ShortAuthenticationString.fromStr v.encode = .ok v) ∧
    (∀ v : VerificationMethod, VerificationMethod.fromStr v.encode = .ok v) := by
  refine ⟨?_, ?_, ?_, ?_, ?_⟩ <;> intro v <;> cases v <;> rfl

/-- C3: for each of the five enumerations, every string of the canonical
wire-string table decodes successfully and re-encoding the result yields
the same string. -/
theorem table_decode_encode (s : String) :
    (s ∈ HashAlgorithm.table →
      ∃ v, HashAlgorithm.fromStr s = .ok v ∧ v.encode = s) ∧
    (s ∈ KeyAgreementProtocol.table →
      ∃ v, KeyAgreementProtocol.fromStr s = .ok v ∧ v.encode = s) ∧
    (s ∈ MessageAuthenticationCode.table →
      ∃ v, MessageAuthenticationCode.fromStr s = .ok v ∧ v.encode = s) ∧
    (s ∈ ShortAuthenticationString.table →
      ∃ v, ShortAuthenticationString.fromStr s = .ok v ∧ v.encode = s) ∧
    (s ∈ VerificationMethod.table →
      ∃ v, VerificationMethod.fromStr s = .ok v ∧ v.encode = s) := by
  refine ⟨?_, ?_, ?_, ?_, ?_⟩ <;> intro hs
  · simp only [HashAlgorithm.table, List.mem_singleton] at hs
    subst hs
    exact ⟨.Sha256, rfl, rfl⟩
  · simp only [KeyAgreementProtocol.table, List.mem_cons, List.mem_singleton,
      List.not_mem_nil, or_false] at hs
    rcases hs with rfl | rfl
    · exact ⟨.Curve25519, rfl, rfl⟩
    · exact ⟨.Curve25519HkdfSha256, rfl, rfl⟩
  · simp only [MessageAuthenticationCode.table, List.mem_cons, List.mem_singleton,
      List.not_mem_nil, or_false] at hs
    rcases hs with rfl | rfl
    · exact ⟨.HkdfHmacSha256, rfl, rfl⟩
    · exact ⟨.HmacSha256, rfl, rfl⟩
  · simp only [ShortAuthenticationString.table, List.mem_cons, List.mem_singleton,
      List.not_mem_nil, or_false] at hs
    rcases hs with rfl | rfl
    · exact ⟨.Decimal, rfl, rfl⟩
    · exact ⟨.Emoji, rfl, rfl⟩
  · simp only [VerificationMethod.table, List.mem_singleton] at hs
    subst hs
    exact ⟨.MSasV1, rfl, rfl⟩

/-- C3 witness: the table string `"curve25519-hkdf-sha256"` decodes and
re-encodes to itself. -/
theorem table_decode_encode_witness :
    "curve25519-hkdf-sha256" ∈ KeyAgreementProtocol.table ∧
      ∃ v, KeyAgreementProtocol.fromStr "curve25519-hkdf-sha256" = .ok v ∧
        v.encode = "curve25519-hkdf-sha256" :=
  ⟨by decide, (table_decode_encode "curve25519-hkdf-sha256").2.1 (by decide)⟩

/-- C4: for each of the five enumerations, both decoders reject every
string outside the canonical table — the FromStr decoder with
`VariantNotFound` and the wire decoder with `unknownVariant` carrying the
received string; matching is exact and case-sensitive, so the mixed-case
`"M.Sas.V1"` is rejected while `"m.sas.v1"` yields `MSasV1`. -/
theorem decode_rejects_unknown (s : String) :
    (s ∉ HashAlgorithm.table →
      HashAlgorithm.fromStr s = .error .VariantNotFound ∧
      HashAlgorithm.decodeStr s = .error (.unknownVariant s)) ∧
    (s ∉ KeyAgreementProtocol.table →
      KeyAgreementProtocol.fromStr s = .error .VariantNotFound ∧
      KeyAgreementProtocol.decodeStr s = .error (.unknownVariant s)) ∧
    (s ∉ MessageAuthenticationCode.table →
      MessageAuthenticationCode.fromStr s = .error .VariantNotFound ∧
      MessageAuthenticationCode.decodeStr s = .error (.unknownVariant s)) ∧
    (s ∉ ShortAuthenticationString.table →
      ShortAuthenticationString.fromStr s = .error .VariantNotFound ∧
      ShortAuthenticationString.decodeStr s = .error (.unknownVariant s)) ∧
    (s ∉ VerificationMethod.table →
      VerificationMethod.fromStr s = .error .VariantNotFound ∧
      VerificationMethod.decodeStr s = .error (.unknownVariant s)) ∧
    VerificationMethod.fromStr "M.Sas.V1" = .error .VariantNotFound ∧
    VerificationMethod.fromStr "m.sas.v1" = .ok .MSasV1 := by
  refine ⟨?_, ?_, ?_, ?_, ?_, rfl, rfl⟩ <;> intro hs
  · simp only [HashAlgorithm.table, List.mem_singleton] at hs
    unfold HashAlgorithm.fromStr HashAlgorithm.decodeStr
    rw [strum_Sha256, serde_Sha256, if_neg hs, if_neg hs]
    exact ⟨rfl, rfl⟩
  · simp only [KeyAgreementProtocol.table, List.mem_cons, List.mem_singleton,
      List.not_mem_nil, or_false, not_or] at hs
    unfold KeyAgreementProtocol.fromStr KeyAgreementProtocol.decodeStr
    rw [strum_Curve25519, strum_Curve25519HkdfSha256, serde_Curve25519,
      serde_Curve25519HkdfSha256, if_neg hs.1, if_neg hs.2, if_neg hs.1, if_neg hs.2]
    exact ⟨rfl, rfl⟩
  · simp only [MessageAuthenticationCode.table, List.mem_cons, List.mem_singleton,
      List.not_mem_nil, or_false, not_or] at hs
    unfold MessageAuthenticationCode.fromStr MessageAuthenticationCode.decodeStr
    rw [strum_HkdfHmacSha256, strum_HmacSha256, serde_HkdfHmacSha256,
      serde_HmacSha256, if_neg hs.1, if_neg hs.2, if_neg hs.1, if_neg hs.2]
    exact ⟨rfl, rfl⟩
  · simp only [ShortAuthenticationString.table, List.mem_cons, List.mem_singleton,
      List.not_mem_nil, or_false, not_or] at hs
    unfold ShortAuthenticationString.fromStr ShortAuthenticationString.decodeStr
    rw [strum_Decimal, strum_Emoji, serde_Decimal, serde_Emoji,
      if_neg hs.1, if_neg hs.2, if_neg hs.1, if_neg hs.2]
    exact ⟨rfl, rfl⟩
  · simp only [VerificationMethod.table, List.mem_singleton] at hs
    unfold VerificationMethod.fromStr VerificationMethod.decodeStr
    rw [if_neg hs, if_neg hs]
    exact ⟨rfl, rfl⟩

/-- C4 witness: the string `"M.Sas.V1"` is outside every table and is
rejected by both decoders of `VerificationMethod`. -/
theorem decode_rejects_unknown_witness :
    "M.Sas.V1" ∉ VerificationMethod.table ∧
      (VerificationMethod.fromStr "M.Sas.V1" = .error .VariantNotFound ∧
        VerificationMethod.decodeStr "M.Sas.V1" = .error (.unknownVariant "M.Sas.V1")) :=
  ⟨by decide, (decode_rejects_unknown "M.Sas.V1").2.2.2.2.1 (by decide)⟩

/-- C5: for each of the five enumerations and every variant, serialization
yields exactly the JSON string whose contents are the canonical wire form,
and deserializing that JSON string yields the variant back. -/
theorem json_roundtrip :
    (HashAlgorithm.serialize .Sha256 = .str "sha256" ∧
      HashAlgorithm.deserialize (HashAlgorithm.serialize .Sha256) = .ok .Sha256) ∧
    (KeyAgreementProtocol.serialize .Curve25519 = .str "curve25519" ∧
      KeyAgreementProtocol.deserialize (KeyAgreementProtocol.serialize .Curve25519) =
        .ok .Curve25519) ∧
    (KeyAgreementProtocol.serialize .Curve25519HkdfSha256 = .str "curve25519-hkdf-sha256" ∧
      KeyAgreementProtocol.deserialize (KeyAgreementProtocol.serialize .Curve25519HkdfSha256) =
        .ok .Curve25519HkdfSha256) ∧
    (MessageAuthenticationCode.serialize .HkdfHmacSha256 = .str "hkdf-hmac-sha256" ∧
      MessageAuthenticationCode.deserialize (MessageAuthenticationCode.serialize .HkdfHmacSha256) =
        .ok .HkdfHmacSha256) ∧
    (MessageAuthenticationCode.serialize .HmacSha256 = .str "hmac-sha256" ∧
      MessageAuthenticationCode.deserialize (MessageAuthenticationCode.serialize .HmacSha256) =
        .ok .HmacSha256) ∧
    (ShortAuthenticationString.serialize .Decimal = .str "decimal" ∧
      ShortAuthenticationString.deserialize (ShortAuthenticationString.serialize .Decimal) =
        .ok .Decimal) ∧
    (ShortAuthenticationString.serialize .Emoji = .str "emoji" ∧
      ShortAuthenticationString.deserialize (ShortAuthenticationString.serialize .Emoji) =
        .ok .Emoji) ∧
    (VerificationMethod.serialize .MSasV1 = .str "m.sas.v1" ∧
      VerificationMethod.deserialize (VerificationMethod.serialize .MSasV1) = .ok .MSasV1) :=
  ⟨⟨rfl, rfl⟩, ⟨rfl, rfl⟩, ⟨rfl, rfl⟩, ⟨rfl, rfl⟩, ⟨rfl, rfl⟩, ⟨rfl, rfl⟩,
    ⟨rfl, rfl⟩, ⟨rfl, rfl⟩⟩

/-- C6: the JSON array of the strings `"hkdf-hmac-sha256"` and
`"hmac-sha256"` deserializes as a sequence of message authentication codes
to exactly the two-element sequence `HkdfHmacSha256`, `HmacSha256` in that
order. -/
theorem mac_list_deserialize :
    deserializeList MessageAuthenticationCode.deserialize
        (.arr [.str "hkdf-hmac-sha256", .str "hmac-sha256"]) =
      .ok [.HkdfHmacSha256, .HmacSha256] := rfl

/-- C7: for each of the five enumerations and every variant, the
strum-derived Display rendering agrees with the serde-derived wire
encoding, including the literal `"m.sas.v1"` of `VerificationMethod`. -/
theorem display_eq_encode :
    (∀ v : HashAlgorithm, v.display = v.encode) ∧
    (∀ v : KeyAgreementProtocol, v.display = v.encode) ∧
    (∀ v : MessageAuthenticationCode, v.display = v.encode) ∧
    (∀ v : ShortAuthenticationString, v.display = v.encode) ∧
    (∀ v : VerificationMethod, v.display = v.encode) := by
  refine ⟨?_, ?_, ?_, ?_, ?_⟩ <;> intro v <;> cases v <;> decide

/-- C8: within each of the five enumerations, two values are equal exactly
when their canonical wire strings are equal; in particular `encode` is
injective. -/
theorem encode_injective_iff :
    (∀ a b : HashAlgorithm, a = b ↔ a.encode = b.encode) ∧
    (∀ a b : KeyAgreementProtocol, a = b ↔ a.encode = b.encode) ∧
    (∀ a b : MessageAuthenticationCode, a = b ↔ a.encode = b.encode) ∧
    (∀ a b : ShortAuthenticationString, a = b ↔ a.encode = b.encode) ∧
    (∀ a b : VerificationMethod, a = b ↔ a.encode = b.encode) := by
  refine ⟨?_, ?_, ?_, ?_, ?_⟩ <;> intro a b <;> cases a <;> cases b <;> decide

/-- C9: for each of the five enumerations, the strum-derived plain-string
decoder and the serde-derived JSON-string decoder agree on every input
string — both fail, or both succeed with the same variant. -/
theorem fromStr_deserialize_agree (s : String) :
    (HashAlgorithm.fromStr s).toOption =
      (HashAlgorithm.deserialize (.str s)).toOption ∧
    (KeyAgreementProtocol.fromStr s).toOption =
      (KeyAgreementProtocol.deserialize (.str s)).toOption ∧
    (MessageAuthenticationCode.fromStr s).toOption =
      (MessageAuthenticationCode.deserialize (.str s)).toOption ∧
    (ShortAuthenticationString.fromStr s).toOption =
      (ShortAuthenticationString.deserialize (.str s)).toOption ∧
    (VerificationMethod.fromStr s).toOption =
      (VerificationMethod.deserialize (.str s)).toOption := by
  refine ⟨?_, ?_, ?_, ?_, ?_⟩
  · show (HashAlgorithm.fromStr s).toOption = (HashAlgorithm.decodeStr s).toOption
    unfold HashAlgorithm.fromStr HashAlgorithm.decodeStr
    rw [strum_Sha256, serde_Sha256]
    by_cases h : s = "sha256" <;> simp [h, Except.toOption]
  · show (KeyAgreementProtocol.fromStr s).toOption =
      (KeyAgreementProtocol.decodeStr s).toOption
    unfold KeyAgreementProtocol.fromStr KeyAgreementProtocol.decodeStr
    rw [strum_Curve25519, strum_Curve25519HkdfSha256, serde_Curve25519,
      serde_Curve25519HkdfSha256]
    by_cases h1 : s = "curve25519" <;> by_cases h2 : s = "curve25519-hkdf-sha256" <;>
      simp [h1, h2, Except.toOption]
  · show (MessageAuthenticationCode.fromStr s).toOption =
      (MessageAuthenticationCode.decodeStr s).toOption
    unfold MessageAuthenticationCode.fromStr MessageAuthenticationCode.decodeStr
    rw [strum_HkdfHmacSha256, strum_HmacSha256, serde_HkdfHmacSha256, serde_HmacSha256]
    by_cases h1 : s = "hkdf-hmac-sha256" <;> by_cases h2 : s = "hmac-sha256" <;>
      simp [h1, h2, Except.toOption]
  · show (ShortAuthenticationString.fromStr s).toOption =
      (ShortAuthenticationString.decodeStr s).toOption
    unfold ShortAuthenticationString.fromStr ShortAuthenticationString.decodeStr
    rw [strum_Decimal, strum_Emoji, serde_Decimal, serde_Emoji]
    by_cases h1 : s = "decimal" <;> by_cases h2 : s = "emoji" <;>
      simp [h1, h2, Except.toOption]
  · show (VerificationMethod.fromStr s).toOption =
      (VerificationMethod.decodeStr s).toOption
    unfold VerificationMethod.fromStr VerificationMethod.decodeStr
    by_cases h : s = "m.sas.v1" <;> simp [h, Except.toOption]

/-- C10: deserializing a JSON value that is not a string — null, boolean,
number, array or object — fails with a type error for each of the five
enumerations; the decoders are total Lean functions, so no panic can
occur and no variant is produced. -/
theorem deserialize_nonstring_fails (j : Json) (h : ∀ s, j ≠ Json.str s) :
    HashAlgorithm.deserialize j = .error .invalidType ∧
    KeyAgreementProtocol.deserialize j = .error .invalidType ∧
    MessageAuthenticationCode.deserialize j = .error .invalidType ∧
    ShortAuthenticationString.deserialize j = .error .invalidType ∧
    VerificationMethod.deserialize j = .error .invalidType := by
  cases j <;>
    first
      | exact ⟨rfl, rfl, rfl, rfl, rfl⟩
      | exact absurd rfl (h _)

/-- C10 witness: JSON null is rejected by all five deserializers. -/
theorem deserialize_nonstring_fails_witness :
    HashAlgorithm.deserialize Json.null = .error .invalidType ∧
    KeyAgreementProtocol.deserialize Json.null = .error .invalidType ∧
    MessageAuthenticationCode.deserialize Json.null = .error .invalidType ∧
    ShortAuthenticationString.deserialize Json.null = .error .invalidType ∧
    VerificationMethod.deserialize Json.null = .error .invalidType :=
  deserialize_nonstring_fails Json.null (fun _ h => Json.noConfusion h)

end KeyVerification
